import Mathlib

/-!
Verification of the upload-handling middleware in `src/updatedcode.js.js`.

The module keeps a "size ledger": a JSON file `cumulativeSize.json` holding
one integer `totalSize`.  `getCumulativeSize` reads and parses it, falling
back to 0 on any failure; `updateCumulativeSize` clamps the new total at 0
and fully rewrites the file.  A multer-based upload pipeline filters PDFs,
limits size to 20 MiB, and increments the ledger on success;
`deleteReportFile` stats, unlinks and decrements.

The filesystem and the JSON library are external to the module, so a read of
the ledger file is embedded as its observable result (`LedgerRead`): the read
threw, the parse threw, or a JSON value was produced whose `totalSize` field
is an optional integer.  Writes are embedded by the exact string the module
hands to `writeFile` together with the state a subsequent read observes.
-/

/-- Observable result of `fs.readFile` plus `JSON.parse` on the ledger file:
`readError` when the file is missing or unreadable (`readFile` throws),
`parseError` when `JSON.parse` throws, and `parsed t` for a parsed JSON
value whose `totalSize` field is `t` (`none` when the field is absent). -/
inductive LedgerRead where
  | readError : LedgerRead
  | parseError : LedgerRead
  | parsed : Option Int → LedgerRead
deriving DecidableEq, Repr

/-- Embeds `getCumulativeSize`: return `parsed.totalSize || 0` on a
successful read and parse, and 0 from the `catch` branch otherwise. -/
def getCumulativeSize : LedgerRead → Int
  | .readError => 0
  | .parseError => 0
  | .parsed t => t.getD 0

/-- The exact string `JSON.stringify(\x7b totalSize: n \x7d)` produces for an
integer `n`: `\x7b"totalSize":n\x7d` with no whitespace. -/
def stringifyLedger (n : Int) : String :=
  "\x7b\"totalSize\":" ++ toString n ++ "\x7d"

/-- What one call of `updateCumulativeSize` produces: the value it returns,
the string it writes as the entire new file content, and the ledger state a
subsequent read observes. -/
structure UpdateResult where
  returned : Int
  written : String
  state : LedgerRead
deriving DecidableEq, Repr

/-- Embeds `updateCumulativeSize(delta)`: read the current size, clamp
`currentSize + delta` at 0, overwrite the file with the stringified object
and return the new size. -/
def updateCumulativeSize (delta : Int) (s : LedgerRead) : UpdateResult :=
  let currentSize := getCumulativeSize s
  let newSize := max 0 (currentSize + delta)
  { returned := newSize
    written := stringifyLedger newSize
    state := .parsed (some newSize) }

/-- The totals persisted by a sequence of `updateCumulativeSize` calls, one
entry per call, each call reading the state the previous call wrote. -/
def persistedTotals (s : LedgerRead) : List Int → List Int
  | [] => []
  | d :: ds =>
    let r := updateCumulativeSize d s
    r.returned :: persistedTotals r.state ds

/-- C1: for every integer delta and prior ledger state,
`updateCumulativeSize(delta)` computes `newTotal = max(0, read() + delta)`,
persists `\x7b"totalSize":newTotal\x7d` as the entire file content, and
returns `newTotal`; starting absent, `read()` is 0, `adjust(500)` leaves the
file containing `\x7b"totalSize":500\x7d`, and a subsequent `adjust(-800)`
leaves it containing `\x7b"totalSize":0\x7d`. -/
theorem updateCumulativeSize_spec (delta : Int) (s : LedgerRead) :
    ((updateCumulativeSize delta s).returned
        = max 0 (getCumulativeSize s + delta)
      ∧ (updateCumulativeSize delta s).written
        = stringifyLedger ((updateCumulativeSize delta s).returned)
      ∧ (updateCumulativeSize delta s).state
        = .parsed (some ((updateCumulativeSize delta s).returned)))
    ∧ getCumulativeSize .readError = 0
    ∧ (updateCumulativeSize 500 .readError).written = "\x7b\"totalSize\":500\x7d"
    ∧ (updateCumulativeSize (-800) (updateCumulativeSize 500 .readError).state).written
        = "\x7b\"totalSize\":0\x7d" := by
  refine ⟨⟨rfl, rfl, rfl⟩, rfl, ?_, ?_⟩ <;> rfl

/-- C3: every total persisted by a finite sequence of `updateCumulativeSize`
calls, from any prior ledger state, is non-negative; in particular
`adjust(-1000)` on an absent or zero ledger yields 0, not -1000. -/
theorem persistedTotals_nonneg (s : LedgerRead) (ds : List Int) :
    (∀ v ∈ persistedTotals s ds, 0 ≤ v)
    ∧ (updateCumulativeSize (-1000) .readError).returned = 0
    ∧ (updateCumulativeSize (-1000) (.parsed (some 0))).returned = 0 := by
  refine ⟨?_, rfl, rfl⟩
  induction ds generalizing s with
  | nil => intro v hv; simp [persistedTotals] at hv
  | cons d ds ih =>
    intro v hv
    simp only [persistedTotals, List.mem_cons] at hv
    rcases hv with h | h
    · subst h; exact le_max_left 0 _
    · exact ih _ v h

/-- C6: `getCumulativeSize` returns the parsed file's `totalSize` field, and
returns 0 on a missing or unreadable file, on a parse failure, or on a
missing field, with no distinction between an uninitialized and a corrupted
ledger. -/
theorem getCumulativeSize_spec (t : Int) :
    getCumulativeSize (.parsed (some t)) = t
    ∧ getCumulativeSize (.parsed none) = 0
    ∧ getCumulativeSize .readError = 0
    ∧ getCumulativeSize .parseError = 0
    ∧ getCumulativeSize .readError = getCumulativeSize .parseError :=
  ⟨rfl, rfl, rfl, rfl, rfl⟩

/-- The part of a path after its last `/`, as Node's `path.basename` sees it
for the purposes of `path.extname` (POSIX separators). -/
def basenameOf (s : String) : String :=
  String.mk ((s.toList.reverse.takeWhile (fun c => c ≠ '/')).reverse)

/-- Index of the last `.` in a character list, when there is one. -/
def lastDotIdx (l : List Char) : Option Nat :=
  match l.reverse.findIdx? (fun c => c = '.') with
  | none => none
  | some j => some (l.length - 1 - j)

/-- Embeds Node's `path.extname` (POSIX): the basename's suffix from its last
`.`, or `""` when the basename has no `.`, starts with its only `.` (a
dotfile), or is exactly `..`. -/
def extname (s : String) : String :=
  let b := basenameOf s
  if b = ".." then ""
  else
    match lastDotIdx b.toList with
    | none => ""
    | some 0 => ""
    | some i => String.mk (b.toList.drop i)

/-- Does the second character list start with the first? -/
def listBeginsWith : List Char → List Char → Bool
  | [], _ => true
  | _ :: _, [] => false
  | p :: ps, c :: cs => p = c && listBeginsWith ps cs

/-- Does the character list contain the pattern as a contiguous run? -/
def listContainsSeq (pat : List Char) : List Char → Bool
  | [] => pat.isEmpty
  | c :: cs => listBeginsWith pat (c :: cs) || listContainsSeq pat cs

/-- Embeds the JavaScript test `/pdf/.test(s)`: does `s` contain `"pdf"` as a
substring (unanchored, case-sensitive)? -/
def regexTestPdf (s : String) : Bool :=
  listContainsSeq "pdf".toList s.toList

/-- Embeds JavaScript's `toLowerCase()` on the ASCII strings the filter
compares: lower-case every character. -/
def strToLower (s : String) : String :=
  String.mk (s.toList.map Char.toLower)

/-- Outcome of the multer file filter callback: `cb(null, true)` or
`cb(new Error(msg))`. -/
inductive FilterResult where
  | accept : FilterResult
  | reject : String → FilterResult
deriving DecidableEq, Repr

/-- Embeds `fileFilter`: accept when `/pdf/` matches the declared MIME type
and also matches the lowercased extension of the original name; otherwise
reject with the fixed error message. -/
def fileFilter (mimetype originalname : String) : FilterResult :=
  let mt := regexTestPdf mimetype
  let ext := regexTestPdf (strToLower (extname originalname))
  if mt && ext then .accept
  else .reject "Invalid file type. Only PDF files are allowed."

/-- Acceptance predicate as the spec words it: MIME type and extension must
both match `pdf`, the match being case-insensitive and an unanchored
substring match — so both strings are compared lowercased. -/
def specFilterAccepts (mimetype originalname : String) : Bool :=
  regexTestPdf (strToLower mimetype) && regexTestPdf (strToLower (extname originalname))

/-- C4 counterexample: a file with declared MIME type `application/PDF` and
name `x.pdf` is accepted by the spec's case-insensitive reading but rejected
by the code, whose `/pdf/` test on the MIME type is case-sensitive. -/
theorem fileFilter_case_counterexample :
    specFilterAccepts "application/PDF" "x.pdf" = true
    ∧ fileFilter "application/PDF" "x.pdf"
        ≠ .accept := by
  exact ⟨rfl, by decide⟩

/-- C4 amended: the filter accepts exactly when the declared MIME type
contains `pdf` as a case-sensitive substring and the lowercased file-name
extension contains `pdf` (so only the extension check is case-insensitive);
consequently a file named `a b.txt` is rejected with the fixed message
regardless of its declared MIME type. -/
theorem fileFilter_spec (mt name : String) :
    (fileFilter mt name = .accept
      ↔ (regexTestPdf mt = true ∧ regexTestPdf (strToLower (extname name)) = true))
    ∧ fileFilter mt "a b.txt" = .reject "Invalid file type. Only PDF files are allowed." := by
  constructor
  · unfold fileFilter
    rcases h1 : regexTestPdf mt <;>
      rcases h2 : regexTestPdf (strToLower (extname name)) <;>
        simp [h1, h2]
  · unfold fileFilter
    have h : regexTestPdf (strToLower (extname "a b.txt")) = false := by decide
    simp [h]

/-- The uploaded file as multer attaches it to `req.file`: declared MIME
type, original name, and byte size on disk. -/
structure FileInfo where
  mimetype : String
  originalname : String
  size : Nat
deriving DecidableEq, Repr

/-- Error the upload step hands to the callback: a `multer.MulterError`
carrying its `code` and `message`, or a plain `Error` carrying its message
(the file filter rejects with the latter kind). -/
inductive UploadErr where
  | multerErr : String → String → UploadErr
  | otherErr : String → UploadErr
deriving DecidableEq, Repr

/-- JSON body of an error response from `handleFileUpload`. -/
structure ResponseBody where
  status : Bool
  status_code : Nat
  message : String
deriving DecidableEq, Repr

/-- Observable outcome of `handleFileUpload`: an error response carrying the
HTTP status and JSON body, or a call of `next()`; both record the ledger
state left behind. -/
inductive UploadResult where
  | respond : Nat → ResponseBody → LedgerRead → UploadResult
  | callNext : LedgerRead → UploadResult
deriving DecidableEq, Repr

/-- Embeds the callback `handleFileUpload` passes to `singleUpload`: branch
on the error as the code does, and on success update the ledger by the
file's size when a file is present with a truthy (nonzero) size, awaiting
the update before `next()`. -/
def handleUploadCallback (err : Option UploadErr) (file : Option FileInfo)
    (s : LedgerRead) : UploadResult :=
  match err with
  | some (.multerErr code msg) =>
    if code = "LIMIT_UNEXPECTED_FILE" then
      .respond 400 ⟨false, 400, "Only a single file can be uploaded for report_pdf."⟩ s
    else
      .respond 400 ⟨false, 400, msg⟩ s
  | some (.otherErr msg) =>
    if msg = "Invalid file type. Only PDF files are allowed." then
      .respond 400 ⟨false, 400, "Invalid file type. Only PDF files are accepted."⟩ s
    else
      .respond 500 ⟨false, 500, "An error occurred during file upload."⟩ s
  | none =>
    match file with
    | some f =>
      if f.size ≠ 0 then .callNext (updateCumulativeSize (f.size : Int) s).state
      else .callNext s
    | none => .callNext s

/-- Modelled from the spec: the outcome the configured single-file multipart
parser (`upload.single`, from the external multer library, whose internals
are not part of this repository's sources) hands to the callback for a
request carrying one file under the expected field — the file filter's
rejection error when the filter rejects, a `MulterError` of kind
`LIMIT_FILE_SIZE` when the file exceeds the configured 20 MiB limit, and no
error otherwise (no file is attached to the request on error). -/
def multerSingleOutcome (f : FileInfo) : Option UploadErr :=
  match fileFilter f.mimetype f.originalname with
  | .reject msg => some (.otherErr msg)
  | .accept =>
    if 20 * 1024 * 1024 < f.size then
      some (.multerErr "LIMIT_FILE_SIZE" "File too large")
    else
      none

/-- Embeds `handleFileUpload` on a request carrying one file under the
expected field: run the parser, then the callback on its outcome. -/
def handleFileUpload (f : FileInfo) (s : LedgerRead) : UploadResult :=
  match multerSingleOutcome f with
  | some e => handleUploadCallback (some e) none s
  | none => handleUploadCallback none (some f) s

/-- C2: when the parse succeeds with a file of positive size, the ledger is
updated by exactly that size before `next()` runs; in particular every
accepted PDF of at most 20 MiB passes control downstream with the ledger
total increased by exactly the file's byte size (from any ledger whose read
is non-negative). -/
theorem handleFileUpload_success (f : FileInfo) (s : LedgerRead)
    (hacc : fileFilter f.mimetype f.originalname = .accept)
    (hsize : f.size ≤ 20 * 1024 * 1024)
    (hpos : 0 < f.size)
    (hnn : 0 ≤ getCumulativeSize s) :
    ∃ s', handleFileUpload f s = .callNext s'
      ∧ getCumulativeSize s' = getCumulativeSize s + (f.size : Int) := by
  have h1 : ¬ ((20 * 1024 * 1024 : Nat) < f.size) := by omega
  have h2 : f.size ≠ 0 := by omega
  have h3 : max 0 (getCumulativeSize s + (f.size : Int))
      = getCumulativeSize s + (f.size : Int) := by
    apply max_eq_right; omega
  refine ⟨.parsed (some (getCumulativeSize s + (f.size : Int))), ?_, by
    simp [getCumulativeSize]⟩
  unfold handleFileUpload multerSingleOutcome
  rw [hacc]
  simp only [if_neg h1]
  unfold handleUploadCallback
  simp only [if_pos h2, updateCumulativeSize, h3]

/-- C2 witness: a 5-byte `application/pdf` upload named `report.pdf` onto an
absent ledger passes downstream and leaves the ledger at 5. -/
theorem handleFileUpload_success_witness :
    ∃ s', handleFileUpload ⟨"application/pdf", "report.pdf", 5⟩ .readError = .callNext s'
      ∧ getCumulativeSize s' = getCumulativeSize .readError + ((5 : Nat) : Int) :=
  handleFileUpload_success ⟨"application/pdf", "report.pdf", 5⟩ .readError
    (by decide) (by decide) (by decide) (by decide)

/-- C5: every error outcome is answered with a JSON body whose `status` is
`false` and whose `status_code` matches the HTTP status: the unexpected
extra file error gets 400 with the fixed single-file message, any other
parser-level error gets 400 with the parser's own message, the filter's
rejection gets 400 with the fixed invalid-type message, and any other error
gets 500 with the generic message. -/
theorem handleUploadCallback_errors (code msg : String) (s : LedgerRead) :
    handleUploadCallback (some (.multerErr "LIMIT_UNEXPECTED_FILE" msg)) none s
      = .respond 400 ⟨false, 400, "Only a single file can be uploaded for report_pdf."⟩ s
    ∧ (code ≠ "LIMIT_UNEXPECTED_FILE" →
        handleUploadCallback (some (.multerErr code msg)) none s
          = .respond 400 ⟨false, 400, msg⟩ s)
    ∧ handleUploadCallback (some (.otherErr "Invalid file type. Only PDF files are allowed.")) none s
      = .respond 400 ⟨false, 400, "Invalid file type. Only PDF files are accepted."⟩ s
    ∧ (msg ≠ "Invalid file type. Only PDF files are allowed." →
        handleUploadCallback (some (.otherErr msg)) none s
          = .respond 500 ⟨false, 500, "An error occurred during file upload."⟩ s) := by
  refine ⟨by simp [handleUploadCallback], ?_, by simp [handleUploadCallback], ?_⟩
  · intro h; simp [handleUploadCallback, h]
  · intro h; simp [handleUploadCallback, h]

/-- C8: whenever the parse step rejects the upload — the filter refusing the
type or the 20 MiB limit being exceeded — the error response is sent with
the ledger state unchanged, no increment having run. -/
theorem handleFileUpload_rejected (f : FileInfo) (s : LedgerRead) (e : UploadErr)
    (h : multerSingleOutcome f = some e) :
    ∃ c b, handleFileUpload f s = .respond c b s := by
  unfold handleFileUpload
  rw [h]
  rcases e with ⟨code, msg⟩ | msg
  · by_cases hc : code = "LIMIT_UNEXPECTED_FILE"
    · exact ⟨400, ⟨false, 400, "Only a single file can be uploaded for report_pdf."⟩,
        by simp [handleUploadCallback, hc]⟩
    · exact ⟨400, ⟨false, 400, msg⟩, by simp [handleUploadCallback, hc]⟩
  · by_cases hm : msg = "Invalid file type. Only PDF files are allowed."
    · exact ⟨400, ⟨false, 400, "Invalid file type. Only PDF files are accepted."⟩,
        by simp [handleUploadCallback, hm]⟩
    · exact ⟨500, ⟨false, 500, "An error occurred during file upload."⟩,
        by simp [handleUploadCallback, hm]⟩

/-- C8 witness: a forged-MIME upload named `a b.txt` onto a ledger at 7 is
answered with an error response and the ledger still at 7. -/
theorem handleFileUpload_rejected_witness :
    ∃ c b, handleFileUpload ⟨"application/pdf", "a b.txt", 5⟩ (.parsed (some 7))
      = .respond c b (.parsed (some 7)) :=
  handleFileUpload_rejected ⟨"application/pdf", "a b.txt", 5⟩ (.parsed (some 7))
    (.otherErr "Invalid file type. Only PDF files are allowed.") (by decide)

/-- What one call of `deleteReportFile` produces: the boolean it returns,
whether the unlink completed (the file is gone from disk), and the ledger
state left behind. -/
structure DeleteResult where
  returned : Bool
  fileRemoved : Bool
  ledger : LedgerRead
deriving DecidableEq, Repr

/-- Embeds `deleteReportFile`: stat the file, unlink it, adjust the ledger by
minus the stat size, and return `true`; a throw at any step lands in the
`catch` branch, which logs and returns `false`.  `statResult` is `fs.stat`'s
observable outcome (the file's size, or failure), `unlinkOk` whether
`fs.unlink` succeeds, and `writeOk` whether the file rewrite inside
`updateCumulativeSize` succeeds (its read cannot throw). -/
def deleteReportFile (statResult : Option Nat) (unlinkOk writeOk : Bool)
    (s : LedgerRead) : DeleteResult :=
  match statResult with
  | none => ⟨false, false, s⟩
  | some size =>
    if unlinkOk then
      if writeOk then
        ⟨true, true, (updateCumulativeSize (-(size : Int)) s).state⟩
      else
        ⟨false, true, s⟩
    else
      ⟨false, false, s⟩

/-- C7: `deleteReportFile` returns `true` exactly when the stat, the unlink
and the ledger rewrite all succeed, and `false` on a failure at any step;
when it returns `true` the file is gone from disk and the ledger total has
decreased by the file's size, clamped at 0. -/
theorem deleteReportFile_spec (statResult : Option Nat) (unlinkOk writeOk : Bool)
    (s : LedgerRead) :
    (deleteReportFile statResult unlinkOk writeOk s).returned
      = (statResult.isSome && unlinkOk && writeOk)
    ∧ (∀ size : Nat, statResult = some size → unlinkOk = true → writeOk = true →
        (deleteReportFile statResult unlinkOk writeOk s).fileRemoved = true
        ∧ getCumulativeSize (deleteReportFile statResult unlinkOk writeOk s).ledger
            = max 0 (getCumulativeSize s - (size : Int))) := by
  rcases statResult with _ | size <;> rcases unlinkOk <;> rcases writeOk <;>
    simp [deleteReportFile, updateCumulativeSize, getCumulativeSize, sub_eq_add_neg]

/-- C7 witness: deleting a 100-byte file with every step succeeding, from a
ledger at 250, returns `true`, removes the file, and leaves the ledger at
150. -/
theorem deleteReportFile_spec_witness :
    (deleteReportFile (some 100) true true (.parsed (some 250))).returned
      = ((some (100 : Nat)).isSome && true && true)
    ∧ ((deleteReportFile (some 100) true true (.parsed (some 250))).fileRemoved = true
        ∧ getCumulativeSize (deleteReportFile (some 100) true true (.parsed (some 250))).ledger
            = max 0 (getCumulativeSize (.parsed (some 250)) - ((100 : Nat) : Int))) :=
  ⟨(deleteReportFile_spec (some 100) true true (.parsed (some 250))).1,
    (deleteReportFile_spec (some 100) true true (.parsed (some 250))).2 100 rfl rfl rfl⟩

/-- C10: an execution where the stat and the unlink succeed but the ledger
rewrite fails returns `false` although the file is already gone and the
ledger was never decremented: a `false` return does not mean nothing
changed. -/
theorem deleteReportFile_partial_failure :
    deleteReportFile (some 100) true false (.parsed (some 100))
      = ⟨false, true, .parsed (some 100)⟩ := rfl

/-- JavaScript's `Math.round`: round half toward positive infinity, that is
`⌊x + 1/2⌋`.  The argument is modelled as an exact rational. -/
def roundHalfUp (q : ℚ) : Int := ⌊q + 1 / 2⌋

/-- Embeds `Math.round(Math.random() * 1E9)` for a `Math.random()` value
`r`, which ranges over `[0, 1)`. -/
def randomSuffixInt (r : ℚ) : Int := roundHalfUp (r * 1000000000)

/-- Embeds the storage engine's `filename` callback: `Date.now()`, a dash,
`Math.round(Math.random() * 1E9)`, a dash, then the file's original name. -/
def storageFilename (now : Int) (r : ℚ) (originalname : String) : String :=
  toString now ++ "-" ++ toString (randomSuffixInt r) ++ "-" ++ originalname

/-- C9 counterexample: at the largest value `Math.random()` can return,
`(2^53 - 1) / 2^53`, the rounded suffix equals 1e9, so it is not strictly
less than 1e9. -/
theorem storageFilename_random_counterexample :
    (0 : ℚ) ≤ (2 ^ 53 - 1) / 2 ^ 53
    ∧ ((2 ^ 53 - 1) / 2 ^ 53 : ℚ) < 1
    ∧ randomSuffixInt ((2 ^ 53 - 1) / 2 ^ 53) = 1000000000
    ∧ ¬ (randomSuffixInt ((2 ^ 53 - 1) / 2 ^ 53) < 1000000000) := by
  have h : randomSuffixInt ((2 ^ 53 - 1) / 2 ^ 53) = 1000000000 := by
    unfold randomSuffixInt roundHalfUp
    rw [Int.floor_eq_iff]
    constructor <;> norm_num
  exact ⟨by norm_num, by norm_num, h, by omega⟩

/-- C9 amended: every stored upload's generated name has the form
`{unixMillis}-{randomInt}-{originalFileName}` where the random integer lies
in the closed interval `[0, 1e9]`: `Math.round` can carry a `Math.random()`
value close to 1 up to exactly 1e9. -/
theorem storageFilename_spec (now : Int) (r : ℚ) (orig : String)
    (h0 : 0 ≤ r) (h1 : r < 1) :
    storageFilename now r orig
      = toString now ++ "-" ++ toString (randomSuffixInt r) ++ "-" ++ orig
    ∧ 0 ≤ randomSuffixInt r
    ∧ randomSuffixInt r ≤ 1000000000 := by
  refine ⟨rfl, ?_, ?_⟩
  · unfold randomSuffixInt roundHalfUp
    apply Int.le_floor.mpr
    push_cast
    nlinarith
  · unfold randomSuffixInt roundHalfUp
    have h2 : ⌊(r * 1000000000 + 1 / 2 : ℚ)⌋ < (1000000001 : Int) := by
      apply Int.floor_lt.mpr
      push_cast
      nlinarith
    omega

/-- C9 amended witness: at `Math.random() = 1/2` the suffix is 500000000 and
the bounds hold. -/
theorem storageFilename_spec_witness :
    storageFilename 0 (1 / 2) "a.pdf"
      = toString (0 : Int) ++ "-" ++ toString (randomSuffixInt (1 / 2)) ++ "-" ++ "a.pdf"
    ∧ 0 ≤ randomSuffixInt (1 / 2)
    ∧ randomSuffixInt (1 / 2) ≤ 1000000000 :=
  storageFilename_spec 0 (1 / 2) "a.pdf" (by norm_num) (by norm_num)
